import Mathlib

/-!
Shallow embedding of the YouTube video lifecycle plugin
(`pystargazer/plugins/youtube.py`) and verification of its specification.

Modelling conventions:
* `datetime` instants and POSIX timestamps are whole epoch seconds (`Int`).
  Python `datetime` objects are always truthy; a numeric timestamp is falsy
  exactly when it equals `0`.
* Python values that may be `None` are `Option`s.
* A handler that can raise an unhandled Python exception is an
  `Except PyExc _`; the exception constructors mirror the Python exception
  classes that can escape.
* Network effects are passed in as explicit oracle arguments: the body of an
  HTTP response for a single `Video.fetch` call, or a function
  `Video → Option Video` giving each tracked video's re-fetched state
  (`none` = the fetch reported failure, in which case the Python code leaves
  the object unmutated).
-/

namespace PyStargazer

/-- Python exceptions that can escape the modelled handlers. -/
inductive PyExc
  | stopIteration
  | keyError
  | typeError
  | indexError
  | valueError
deriving DecidableEq, Repr

/-- The `class ResourceType(Enum)` member set. -/
inductive ResourceType
  | VIDEO
  | BROADCAST
deriving DecidableEq, Repr

/-- The `name` attribute of the Python `Enum` member. -/
def ResourceType.name : ResourceType → String
  | .VIDEO => "VIDEO"
  | .BROADCAST => "BROADCAST"

/-- Lookup of an enum member by name, `ResourceType[s]`, `KeyError` as `none`. -/
def ResourceType.fromName : String → Option ResourceType
  | "VIDEO" => some .VIDEO
  | "BROADCAST" => some .BROADCAST
  | _ => none

/-- The `class YoutubeEventType(Enum)` member set. -/
inductive YoutubeEventType
  | PUBLISH
  | REMINDER
  | SCHEDULE
  | LIVE
deriving DecidableEq, Repr

/-- The `Video` dataclass. `thumbnail` is declared `str` but `fetch` can
assign `None` to it, so it is an `Option String` here; its dataclass default
`""` is `some ""`. -/
structure Video where
  video_id : String
  title : String := ""
  link : String := ""
  type : Option ResourceType := none
  description : String := ""
  thumbnail : Option String := some ""
  scheduled_start_time : Option Int := none
  actual_start_time : Option Int := none
deriving DecidableEq, Repr

/-- The dictionary produced by `Video.dump`: `type` is stored as the enum
member name, the two instants as numeric epoch timestamps or `None`. -/
structure VideoState where
  video_id : String
  title : String
  link : String
  type : String
  description : String
  thumbnail : Option String
  scheduled_start_time : Option Int
  actual_start_time : Option Int
deriving DecidableEq, Repr

/-- The method `Video.dump`. `self.type.name` raises `AttributeError` when `type` is
`None`, hence the `Option` result. A `datetime` is always truthy, so
`timestamp(dt) if (dt := ...) else None` maps `some t` to `some t` and `none`
to `none`. -/
def Video.dump (v : Video) : Option VideoState :=
  match v.type with
  | none => none
  | some t =>
      some { video_id := v.video_id
             title := v.title
             link := v.link
             type := t.name
             description := v.description
             thumbnail := v.thumbnail
             scheduled_start_time := v.scheduled_start_time
             actual_start_time := v.actual_start_time }

/-- Loading of one stored timestamp, `fromtimestamp(ts) if (ts := ...) else
None`: a stored timestamp is falsy
when it is `None` or the number `0`, and in both cases the loaded instant is
`None`. -/
def loadTimestamp : Option Int → Option Int
  | none => none
  | some ts => if ts = 0 then none else some ts

/-- The classmethod `Video.load`. `ResourceType[state_dict["type"]]` raises `KeyError` for an
unknown member name, hence the `Option` result. -/
def Video.load (s : VideoState) : Option Video :=
  match ResourceType.fromName s.type with
  | none => none
  | some t =>
      some { video_id := s.video_id
             title := s.title
             link := s.link
             type := some t
             description := s.description
             thumbnail := s.thumbnail
             scheduled_start_time := loadTimestamp s.scheduled_start_time
             actual_start_time := loadTimestamp s.actual_start_time }

/-- The method `Video.merge`: `self.__dict__.update(obj.__dict__)` overwrites every
field of `self` with `obj`'s, so the merged value is `obj`; a mismatched
`video_id` (or a non-`Video` argument) raises `ValueError`, hence `none`. -/
def Video.merge (self obj : Video) : Option Video :=
  if self.video_id = obj.video_id then some obj else none

/-- The fields of the YouTube Data API response that `Video.fetch` reads:
`snippet.thumbnails` is `none` when the `thumbnails` dict is absent or empty
(both falsy); otherwise it carries the resulting standard-thumbnail URL,
which `thumbnails.get("standard", \x7b"url": None\x7d).get("url")` makes an
`Option String` itself. -/
structure Snippet where
  description : String
  thumbnails : Option (Option String)
deriving DecidableEq, Repr

/-- The `liveStreamingDetails` block; each timestamp is present only when the
corresponding key has a truthy value, already parsed to an instant. -/
structure StreamingDetails where
  scheduledStartTime : Option Int
  actualStartTime : Option Int
deriving DecidableEq, Repr

/-- One element of the API response's `items` array. -/
structure ApiItem where
  snippet : Option Snippet
  liveStreamingDetails : Option StreamingDetails
deriving DecidableEq, Repr

/-- The decoded API response body. `isEmpty` models `not (data := r.json())`:
the whole JSON value is falsy. -/
structure ApiResponse where
  isEmpty : Bool
  items : List ApiItem
deriving DecidableEq, Repr

/-- The method `Video.fetch`, with the HTTP response passed as an oracle. Returns `none`
where the Python returns `False` (empty JSON, or `items[0]` raising
`IndexError`), in which case the Python object is left unmutated; otherwise
returns the mutated video. Network errors retry forever and are not modelled.
A scheduled/actual timestamp only overwrites the old field when present. -/
def Video.fetch (v : Video) (r : ApiResponse) : Option Video :=
  if r.isEmpty then none
  else
    match r.items.head? with
    | none => none
    | some item =>
        let v1 :=
          match item.snippet with
          | some sn =>
              { v with description := sn.description ++ " ..."
                       thumbnail :=
                         match sn.thumbnails with
                         | some u => u
                         | none => none }
          | none => v
        let v2 :=
          match item.liveStreamingDetails with
          | some st =>
              { v1 with type := some .BROADCAST
                        scheduled_start_time :=
                          match st.scheduledStartTime with
                          | some t => some t
                          | none => v1.scheduled_start_time
                        actual_start_time :=
                          match st.actualStartTime with
                          | some t => some t
                          | none => v1.actual_start_time }
          | none => { v1 with type := some .VIDEO }
        some v2

/-- The `YoutubeEvent` dataclass. Its `__post_init__` validation (BROADCAST
events must carry a scheduled start) is a separate predicate below; every
construction site in the modelled code establishes it. -/
structure YoutubeEvent where
  type : ResourceType
  event : YoutubeEventType
  channel : String
  video : Video
deriving DecidableEq, Repr

/-- The `__post_init__` invariant of `YoutubeEvent`. -/
def YoutubeEvent.valid (e : YoutubeEvent) : Prop :=
  e.type = ResourceType.BROADCAST → e.video.scheduled_start_time ≠ none

/-- An APScheduler job: its string id, the cron instant it fires at (the
scheduled start, to second precision), and the reminder event it will send. -/
structure Job where
  id : String
  fireAt : Int
  event : YoutubeEvent
deriving DecidableEq, Repr

/-- The plugin's mutable module state: `channel_list` (an association list
mirroring the dict from channel id to tracked videos), `read_list` (the dedup
ledger of announced videos) and the scheduler's job store. -/
structure PluginState where
  channel_list : List (String × List Video)
  read_list : List Video
  jobs : List Job
deriving DecidableEq, Repr

/-- Dict lookup `channel_list[channel_id]` made total: `none` models `KeyError`. -/
def lookupChannel (cl : List (String × List Video)) (ch : String) :
    Option (List Video) :=
  (cl.find? (fun p => p.1 = ch)).map (fun p => p.2)

/-- Replacement of one channel's video list, keyed by channel id. -/
def updateChannel (cl : List (String × List Video)) (ch : String)
    (vids : List Video) : List (String × List Video) :=
  cl.map (fun p => if p.1 = ch then (ch, vids) else p)

/-- One entry of the parsed WebSub feed. -/
structure FeedEntry where
  yt_videoid : String
  link : String
  title : String
  yt_channelid : String
deriving DecidableEq, Repr

/-- The POST body after `feedparser.parse`: whether the raw body contains the
`deleted-entry` marker substring, and the parsed entries. -/
structure Feed where
  hasDeletedEntry : Bool
  entries : List FeedEntry
deriving DecidableEq, Repr

/-- The inner `parse_feed`: `feed.entries[0]` raises `IndexError` on an entry-less
feed; otherwise yields `(yt_videoid, link, title, yt_channelid)`. -/
def parse_feed (f : Feed) : Except PyExc (String × String × String × String) :=
  match f.entries.head? with
  | none => .error .indexError
  | some e => .ok (e.yt_videoid, e.link, e.title, e.yt_channelid)

/-- Arming a reminder in `WebsubEndpoint.post`: `get_job`, conditional
`remove_job`, then `add_job` under the same id. -/
def armReminder (jobs : List Job) (job_id : String) (j : Job) : List Job :=
  let jobs1 :=
    if (jobs.find? (fun jb => jb.id = job_id)).isSome then
      jobs.filter (fun jb => jb.id ≠ job_id)
    else jobs
  jobs1 ++ [j]

/-- The responses the modelled endpoints can return: `PlainTextResponse`,
the 404 `Response`, and the bare 200 `Response()`. -/
inductive HttpResponse
  | plainText (body : String)
  | notFound
  | empty
deriving DecidableEq, Repr

/-- The tail of the broadcast branch of `WebsubEndpoint.post`: build the
SCHEDULE and REMINDER events, replace any reminder job under
`reminder_{channel}_{video_id}`, and send the SCHEDULE event. -/
def postArmAndSend (st : PluginState) (channel_id : String)
    (newVids : List Video) (video : Video) (sst : Int) :
    Except PyExc (PluginState × List YoutubeEvent × HttpResponse) :=
  let event_schedule : YoutubeEvent :=
    { type := .BROADCAST, event := .SCHEDULE, channel := channel_id,
      video := video }
  let event_reminder : YoutubeEvent :=
    { type := .BROADCAST, event := .REMINDER, channel := channel_id,
      video := video }
  let job_id := "reminder_" ++ channel_id ++ "_" ++ video.video_id
  let jobs2 := armReminder st.jobs job_id
    { id := job_id, fireAt := sst, event := event_reminder }
  .ok ({ channel_list := updateChannel st.channel_list channel_id newVids
         read_list := st.read_list
         jobs := jobs2 },
       [event_schedule], .empty)

/-- The handler `WebsubEndpoint.post`, with the raw body already through `feedparser`
and the single `video.fetch()` HTTP response as an oracle. The result is the
new plugin state together with the list of events handed to
`send_youtube_event`, or the Python exception that escapes the handler. -/
def WebsubEndpoint.post (st : PluginState) (body : Feed) (resp : ApiResponse) :
    Except PyExc (PluginState × List YoutubeEvent × HttpResponse) :=
  if body.hasDeletedEntry then .ok (st, [], .empty)
  else
    match parse_feed body with
    | .error e => .error e
    | .ok (video_id, _link, _title, channel_id) =>
        match Video.fetch { video_id := video_id } resp with
        | none => .ok (st, [], .empty)
        | some video =>
            if video.type = some ResourceType.VIDEO then
              -- `next(...)` with no default: a missing match raises
              -- StopIteration; a found match is truthy, so the branch body
              -- is skipped.
              match st.read_list.find?
                  (fun w => video.video_id = w.video_id) with
              | none => .error .stopIteration
              | some _ => .ok (st, [], .empty)
            else if video.type = some ResourceType.BROADCAST ∧
                video.actual_start_time = none then
              match video.scheduled_start_time with
              | none => .ok (st, [], .empty)
              | some sst =>
                  match lookupChannel st.channel_list channel_id with
                  | none => .error .keyError
                  | some vids =>
                      let existing :=
                        vids.find? (fun w => video.video_id = w.video_id)
                      let dup : Bool :=
                        match existing with
                        | some e =>
                            e.title == video.title &&
                              e.scheduled_start_time ==
                                video.scheduled_start_time
                        | none => false
                      if dup then .ok (st, [], .empty)
                      else
                        match existing with
                        | some e =>
                            match e.merge video with
                            | none => .error .valueError
                            | some merged =>
                                postArmAndSend st channel_id
                                  (vids.map (fun w =>
                                    if video.video_id = w.video_id then
                                      merged
                                    else w))
                                  merged sst
                        | none =>
                            postArmAndSend st channel_id (vids ++ [video])
                              video sst
            else .ok (st, [], .empty)

/-- A handshake GET request: the query parameters of the topic URL (already
through `urlparse`/`parse_qs`, in order of appearance) plus `hub.challenge`
and `hub.mode`. -/
structure GetRequest where
  topicQuery : List (String × String)
  challenge : String
  mode : String
deriving DecidableEq, Repr

/-- Extraction `parse_qs(urlparse(topic).query).get("channel_id")[0]`: the first value
of the `channel_id` query parameter, `none` when the key is absent (in which
case the subscript of `None` raises `TypeError`). -/
def extractChannelId (q : List (String × String)) : Option String :=
  ((q.filter (fun p => p.1 = "channel_id")).map (fun p => p.2)).head?

/-- The handler `WebsubEndpoint.get`: accept iff (subscribe and channel tracked) or
(unsubscribe and channel untracked); echo the challenge on accept, 404
otherwise. A topic with no `channel_id` parameter raises `TypeError`. -/
def WebsubEndpoint.get (cl : List (String × List Video)) (req : GetRequest) :
    Except PyExc HttpResponse :=
  match extractChannelId req.topicQuery with
  | none => .error .typeError
  | some channel_id =>
      let accept :=
        (req.mode = "subscribe" ∧ (lookupChannel cl channel_id).isSome) ∨
          (req.mode = "unsubscribe" ∧ (lookupChannel cl channel_id).isNone)
      if accept then .ok (.plainText req.challenge) else .ok .notFound

/-- The inner `check_send` of `tick`: decide, against `now`, whether a successfully
re-fetched tracked video should emit a LIVE event and whether it should be
deleted; returns the events sent and the `is_delete` flag. -/
def check_send (now : Int) (ch_id : String) (video : Video) :
    List YoutubeEvent × Bool :=
  match video.scheduled_start_time with
  | none => ([], true)
  | some sst =>
      match video.actual_start_time with
      | some ast =>
          if now - sst > -600 then
            if now - ast < 10800 then
              ([{ type := .BROADCAST, event := .LIVE, channel := ch_id,
                  video := video }], true)
            else ([], true)
          else ([], false)
      | none => ([], false)

/-- The inner `batch_remove`: `channel_list[ch_id].remove(video)` for each pair, i.e.
erase the first occurrence of the video from that channel's list. -/
def batch_remove (cl : List (String × List Video))
    (rm : List (String × Video)) : List (String × List Video) :=
  rm.foldl
    (fun acc p =>
      acc.map (fun q => if q.1 = p.1 then (q.1, q.2.erase p.2) else q))
    cl

/-- The reconciliation `tick`, with the per-video fetch outcome as an oracle
(`fetchRes v = none` models a failed `v.fetch()`, which leaves `v`
unmutated; `some v'` models success mutating `v` into `v'`). Returns the
channel table after the two `batch_remove` passes and the events sent. -/
def tick (cl : List (String × List Video)) (fetchRes : Video → Option Video)
    (now : Int) : List (String × List Video) × List YoutubeEvent :=
  let video_list : List (String × Video) :=
    cl.flatMap (fun p => p.2.map (fun v => (p.1, v)))
  let results : List (String × Video × Option Video) :=
    video_list.map (fun p => (p.1, p.2, fetchRes p.2))
  let success_map : List (String × Video) :=
    results.filterMap (fun r => r.2.2.map (fun v' => (r.1, v')))
  let error_map : List (String × Video) :=
    results.filterMap
      (fun r => if r.2.2.isSome then none else some (r.1, r.2.1))
  let send_map : List ((String × Video) × (List YoutubeEvent × Bool)) :=
    success_map.map (fun p => (p, check_send now p.1 p.2))
  let events : List YoutubeEvent := send_map.flatMap (fun x => x.2.1)
  let remove_map : List (String × Video) :=
    (send_map.filter (fun x => x.2.2)).map (fun x => x.1)
  -- the in-place mutation performed by the concurrent fetches: every video
  -- whose fetch succeeded is now its fetched value inside `channel_list`
  let cl1 := cl.map (fun p => (p.1, p.2.map (fun v => (fetchRes v).getD v)))
  (batch_remove (batch_remove cl1 error_map) remove_map, events)

/-! ## Helper lemmas -/

/-- Enum member lookup by name inverts `name`. -/
theorem ResourceType.fromName_name (t : ResourceType) :
    ResourceType.fromName t.name = some t := by
  cases t <;> rfl

/-- Loading a stored timestamp that is not the number `0` is the identity. -/
theorem loadTimestamp_of_ne_zero (o : Option Int) (h : o ≠ some 0) :
    loadTimestamp o = o := by
  cases o with
  | none => rfl
  | some ts =>
      have hts : ts ≠ 0 := fun h0 => h (by rw [h0])
      simp [loadTimestamp, hts]

/-! ## C5: dump/load round trip -/

/-- A broadcast whose scheduled start is exactly the Unix epoch (timestamp
`0`): `dump` stores the falsy timestamp `0`, which `load` turns into `None`. -/
def epochVideo : Video :=
  { video_id := "v0", title := "t", link := "l",
    type := some ResourceType.BROADCAST, description := "d",
    thumbnail := some "u", scheduled_start_time := some 0,
    actual_start_time := none }

/-- C5 counterexample: `Video.load (Video.dump v)` is not `v` when a start
instant sits exactly at the Unix epoch — the stored timestamp `0` is falsy
and loads back as an absent instant. -/
theorem c5_roundtrip_epoch_cex :
    (Video.dump epochVideo).bind Video.load ≠ some epochVideo := by
  decide

/-- C5 (amended): for every Video of either kind whose scheduled-start and
actual-start instants, when present, are not timestamp `0`,
`Video.load (Video.dump v)` reproduces `v` field for field. -/
theorem c5_roundtrip_amended (v : Video) (t : ResourceType)
    (ht : v.type = some t)
    (hs : v.scheduled_start_time ≠ some 0)
    (ha : v.actual_start_time ≠ some 0) :
    (Video.dump v).bind Video.load = some v := by
  obtain ⟨vid, title, link, ty, desc, thumb, sst, ast⟩ := v
  simp only at ht hs ha
  subst ht
  have h1 : loadTimestamp sst = sst := loadTimestamp_of_ne_zero _ hs
  have h2 : loadTimestamp ast = ast := loadTimestamp_of_ne_zero _ ha
  simp [Video.dump, Video.load, ResourceType.fromName_name, h1, h2]

/-- C5 witness: a concrete broadcast with a nonzero scheduled start
round-trips through dump/load. -/
theorem c5_roundtrip_amended_witness :
    (Video.dump { video_id := "w5", type := some ResourceType.BROADCAST,
                  scheduled_start_time := some 100 } : Option VideoState).bind
        Video.load =
      some { video_id := "w5", type := some ResourceType.BROADCAST,
             scheduled_start_time := some 100 } :=
  c5_roundtrip_amended
    { video_id := "w5", type := some ResourceType.BROADCAST,
      scheduled_start_time := some 100 }
    ResourceType.BROADCAST rfl (by decide) (by decide)

/-! ## C1, C2: webhook notification path -/

/-- An API response with no `liveStreamingDetails`, so `fetch` classifies the
resource as an on-demand VIDEO. -/
def videoApiResponse : ApiResponse :=
  { isEmpty := false,
    items := [{ snippet := some { description := "d",
                                  thumbnails := some (some "u") },
                liveStreamingDetails := none }] }

/-- Scenario A push: new video id `abc123` on channel `ch1`. -/
def feedA : Feed :=
  { hasDeletedEntry := false,
    entries := [{ yt_videoid := "abc123", link := "L", title := "T",
                  yt_channelid := "ch1" }] }

/-- Scenario A starting state: channel `ch1` tracked, empty dedup ledger. -/
def stA : PluginState :=
  { channel_list := [("ch1", [])], read_list := [], jobs := [] }

/-- C1: on Scenario A (push for new video id `abc123`, empty `read_list`)
the handler raises `StopIteration` out of `next(...)`, which has no default:
no PUBLISH event is sent and the ledger is left unchanged, contrary to the
claim (and to the code's own comment on the branch). -/
theorem c1_new_video_raises_stopiteration :
    WebsubEndpoint.post stA feedA videoApiResponse =
      .error .stopIteration := by
  rfl

/-- An API response whose `liveStreamingDetails` carry only a scheduled
start, so `fetch` classifies the resource as a pending BROADCAST. -/
def broadcastApiResponse : ApiResponse :=
  { isEmpty := false,
    items := [{ snippet := none,
                liveStreamingDetails :=
                  some { scheduledStartTime := some 1000,
                         actualStartTime := none } }] }

/-- A push for a broadcast on a channel absent from `channel_list`. -/
def feedUnknownChannel : Feed :=
  { hasDeletedEntry := false,
    entries := [{ yt_videoid := "vidB", link := "L", title := "T",
                  yt_channelid := "chX" }] }

/-- A state tracking no channel at all. -/
def stEmpty : PluginState :=
  { channel_list := [], read_list := [], jobs := [] }

/-- C2: a broadcast push for a channel id not in `channel_list` raises
`KeyError` out of `channel_list[channel_id]`; the exception escapes the
handler, so the hub sees an error status instead of the promised 2xx. -/
theorem c2_unknown_channel_raises_keyerror :
    WebsubEndpoint.post stEmpty feedUnknownChannel broadcastApiResponse =
      .error .keyError := by
  rfl

/-! ## Reconciliation tick -/

/-- Evaluation of `tick` on a table tracking a single broadcast whose fetch
succeeds: the entry is mutated to its fetched state, `check_send` decides the
events and the eviction. -/
theorem tick_singleton (ch : String) (v v' : Video)
    (f : Video → Option Video) (now : Int) (hf : f v = some v') :
    tick [(ch, [v])] f now =
      ((if (check_send now ch v').2 = true then [(ch, ([] : List Video))]
        else [(ch, [v'])]),
       (check_send now ch v').1) := by
  cases hcs : check_send now ch v' with
  | mk evs del =>
      cases del <;>
        simp [tick, batch_remove, hf, hcs, List.erase]

/-! ## C9: resolver failure during the tick -/

/-- C9: a tracked entry whose re-resolution fails is evicted from the
tracking table by the tick (it lands in `error_map` unmutated and is
batch-removed before `check_send` ever sees it), and no lifecycle event is
emitted for it. -/
theorem c9_fetch_failure_evicted (ch : String) (v : Video)
    (f : Video → Option Video) (now : Int) (hf : f v = none) :
    tick [(ch, [v])] f now = ([(ch, [])], []) := by
  simp [tick, batch_remove, hf, List.erase]

/-- A tracked broadcast used by the C9 witness. -/
def v9 : Video :=
  { video_id := "v9", type := some ResourceType.BROADCAST,
    scheduled_start_time := some 1000 }

/-- C9 witness: a concrete tick whose only entry fails to resolve evicts it
with no event. -/
theorem c9_fetch_failure_evicted_witness :
    tick [("c9", [v9])] (fun _ => none) 0 = ([("c9", [])], []) :=
  c9_fetch_failure_evicted "c9" v9 (fun _ => none) 0 rfl

/-! ## C3, C4: per-resource tick policy -/

/-- A tracked broadcast whose pre-roll window has lapsed (`now = 0` is at
scheduled-start − 10 min for a scheduled start of 600) but whose actual
start is unset. -/
def v3c : Video :=
  { video_id := "v3c", type := some ResourceType.BROADCAST,
    scheduled_start_time := some 0 }

/-- C3 counterexample: at `now = 0`, i.e. at/after scheduled-start − 10 min
with actual-start unset, the claim predicts silent eviction, but the tick
retains the entry: `check_send` returns `False` whenever `actual_start_time`
is unset, whatever `now` is. -/
theorem c3_preroll_lapse_retained_cex :
    tick [("c3c", [v3c])] (fun _ => some v3c) 0 ≠ ([("c3c", [])], []) ∧
      tick [("c3c", [v3c])] (fun _ => some v3c) 0 =
        ([("c3c", [v3c])], []) := by
  constructor
  · decide
  · rfl

/-- C3 (amended): a successfully re-resolved tracked broadcast is evicted
with no event when its live window has expired — actual-start set, `now`
strictly after scheduled-start − 10 min, and at least 3 hours past
actual-start; when actual-start is unset the tick retains the entry with no
event, regardless of the pre-roll window. -/
theorem c3_eviction_policy_amended (ch : String) (v v' : Video)
    (f : Video → Option Video) (now sst : Int) (hf : f v = some v')
    (hs : v'.scheduled_start_time = some sst) :
    (∀ ast : Int, v'.actual_start_time = some ast → now - sst > -600 →
       now - ast ≥ 10800 → tick [(ch, [v])] f now = ([(ch, [])], [])) ∧
      (v'.actual_start_time = none →
        tick [(ch, [v])] f now = ([(ch, [v'])], [])) := by
  constructor
  · intro ast ha h1 h2
    have hcs : check_send now ch v' = ([], true) := by
      have h2' : ¬ now - ast < 10800 := not_lt.mpr h2
      simp [check_send, hs, ha, h1, h2']
    rw [tick_singleton ch v v' f now hf, hcs]
    simp
  · intro ha
    have hcs : check_send now ch v' = ([], false) := by
      simp [check_send, hs, ha]
    rw [tick_singleton ch v v' f now hf, hcs]
    simp

/-- A broadcast already 3 hours past its actual start at `now = 10800`. -/
def v3a : Video :=
  { video_id := "v3a", type := some ResourceType.BROADCAST,
    scheduled_start_time := some 0, actual_start_time := some 0 }

/-- A pending broadcast with no actual start. -/
def v3b : Video :=
  { video_id := "v3b", type := some ResourceType.BROADCAST,
    scheduled_start_time := some 0 }

/-- C3 witness: at `now = 10800` an expired live entry is evicted silently,
and an entry with no actual start is retained silently. -/
theorem c3_eviction_policy_amended_witness :
    tick [("c3a", [v3a])] (fun _ => some v3a) 10800 = ([("c3a", [])], []) ∧
      tick [("c3b", [v3b])] (fun _ => some v3b) 10800 =
        ([("c3b", [v3b])], []) :=
  ⟨(c3_eviction_policy_amended "c3a" v3a v3a (fun _ => some v3a) 10800 0 rfl
      rfl).1 0 rfl (by decide) (by decide),
   (c3_eviction_policy_amended "c3b" v3b v3b (fun _ => some v3b) 10800 0 rfl
      rfl).2 rfl⟩

/-- A broadcast exactly at the pre-roll boundary: scheduled start 600,
actual start 0, inspected at `now = 0 = scheduled − 600 s`. -/
def v4c : Video :=
  { video_id := "v4c", type := some ResourceType.BROADCAST,
    scheduled_start_time := some 600, actual_start_time := some 0 }

/-- C4 counterexample: at exactly scheduled-start − 10 min ("at/after" in the
claim) with actual-start set and within 3 h, the claim predicts one LIVE
event and eviction, but `(now − scheduled).total_seconds() > -600` is strict,
so the tick emits nothing and retains the entry. -/
theorem c4_boundary_retained_cex :
    tick [("c4c", [v4c])] (fun _ => some v4c) 0 ≠
        ([("c4c", [])],
         [{ type := ResourceType.BROADCAST, event := YoutubeEventType.LIVE,
            channel := "c4c", video := v4c }]) ∧
      tick [("c4c", [v4c])] (fun _ => some v4c) 0 =
        ([("c4c", [v4c])], []) := by
  constructor
  · decide
  · rfl

/-- C4 (amended): with actual-start set, `now` strictly after
scheduled-start − 10 min and strictly within 3 hours of actual-start, the
tick emits exactly one LIVE event and evicts the entry (single-shot); a tick
at scheduled-start − 20 min with actual-start unset retains the entry and
emits nothing. -/
theorem c4_live_emission_amended (ch : String) (v v' : Video)
    (f : Video → Option Video) (now sst : Int) (hf : f v = some v')
    (hs : v'.scheduled_start_time = some sst) :
    (∀ ast : Int, v'.actual_start_time = some ast → now - sst > -600 →
       now - ast < 10800 →
       tick [(ch, [v])] f now =
         ([(ch, [])],
          [{ type := ResourceType.BROADCAST, event := YoutubeEventType.LIVE,
             channel := ch, video := v' }])) ∧
      (v'.actual_start_time = none → now - sst = -1200 →
        tick [(ch, [v])] f now = ([(ch, [v'])], [])) := by
  constructor
  · intro ast ha h1 h2
    have hcs : check_send now ch v' =
        ([{ type := ResourceType.BROADCAST, event := YoutubeEventType.LIVE,
            channel := ch, video := v' }], true) := by
      simp [check_send, hs, ha, h1, h2]
    rw [tick_singleton ch v v' f now hf, hcs]
    simp
  · intro ha _
    have hcs : check_send now ch v' = ([], false) := by
      simp [check_send, hs, ha]
    rw [tick_singleton ch v v' f now hf, hcs]
    simp

/-- Scenario D's broadcast: scheduled start `T = 0`, actual start
`T + 1 min`, inspected at `now = T + 2 min`. -/
def v4d : Video :=
  { video_id := "v4d", type := some ResourceType.BROADCAST,
    scheduled_start_time := some 0, actual_start_time := some 60 }

/-- Scenario C's broadcast: scheduled start 1200, no actual start,
inspected at `now = 0 = scheduled − 20 min`. -/
def v4e : Video :=
  { video_id := "v4e", type := some ResourceType.BROADCAST,
    scheduled_start_time := some 1200 }

/-- C4 witness: Scenario D emits one LIVE event and evicts; Scenario C
retains the entry with no event. -/
theorem c4_live_emission_amended_witness :
    tick [("c4d", [v4d])] (fun _ => some v4d) 120 =
        ([("c4d", [])],
         [{ type := ResourceType.BROADCAST, event := YoutubeEventType.LIVE,
            channel := "c4d", video := v4d }]) ∧
      tick [("c4e", [v4e])] (fun _ => some v4e) 0 =
        ([("c4e", [v4e])], []) :=
  ⟨(c4_live_emission_amended "c4d" v4d v4d (fun _ => some v4d) 120 0 rfl
      rfl).1 60 rfl (by decide) (by decide),
   (c4_live_emission_amended "c4e" v4e v4e (fun _ => some v4e) 0 1200 rfl
      rfl).2 rfl (by decide)⟩

/-! ## C6: duplicate schedule push -/

/-- C6: a schedule push whose resolved broadcast matches an entry already
tracked for that channel with identical title and identical scheduled start
is a no-op: state (tracking table, ledger, reminder jobs) unchanged, no
event sent, bare 200 returned. -/
theorem c6_duplicate_schedule_noop (st : PluginState) (body : Feed)
    (resp : ApiResponse) (vid l t ch : String) (video e : Video)
    (vids : List Video)
    (hdel : body.hasDeletedEntry = false)
    (hparse : parse_feed body = .ok (vid, l, t, ch))
    (hfetch : Video.fetch { video_id := vid } resp = some video)
    (htype : video.type = some ResourceType.BROADCAST)
    (hact : video.actual_start_time = none)
    (hch : lookupChannel st.channel_list ch = some vids)
    (hfind : vids.find? (fun w => video.video_id = w.video_id) = some e)
    (htitle : e.title = video.title)
    (hsst : e.scheduled_start_time = video.scheduled_start_time) :
    WebsubEndpoint.post st body resp = .ok (st, [], .empty) := by
  cases hs : video.scheduled_start_time with
  | none =>
      simp [WebsubEndpoint.post, hdel, hparse, hfetch, htype, hact, hs]
  | some sst =>
      simp [WebsubEndpoint.post, hdel, hparse, hfetch, htype, hact, hs, hch,
        hfind, htitle, hsst]

/-- The broadcast state fetched for video id `vidB` through
`broadcastApiResponse`. -/
def vB : Video :=
  { video_id := "vidB", type := some ResourceType.BROADCAST,
    scheduled_start_time := some 1000 }

/-- A plugin state already tracking `vB` on channel `chD`, with its reminder
job armed. -/
def stDup : PluginState :=
  { channel_list := [("chD", [vB])], read_list := [],
    jobs := [{ id := "reminder_chD_vidB", fireAt := 1000,
               event := { type := ResourceType.BROADCAST,
                          event := YoutubeEventType.REMINDER,
                          channel := "chD", video := vB } }] }

/-- A second, identical schedule push for `vidB` on channel `chD`. -/
def feedDup : Feed :=
  { hasDeletedEntry := false,
    entries := [{ yt_videoid := "vidB", link := "L", title := "T",
                  yt_channelid := "chD" }] }

/-- C6 witness: the concrete duplicate push leaves the state untouched and
sends nothing. -/
theorem c6_duplicate_schedule_noop_witness :
    WebsubEndpoint.post stDup feedDup broadcastApiResponse =
      .ok (stDup, [], .empty) :=
  c6_duplicate_schedule_noop stDup feedDup broadcastApiResponse
    "vidB" "L" "T" "chD" vB vB [vB] rfl rfl rfl rfl rfl rfl rfl rfl rfl

/-! ## C7: at most one reminder job per key -/

/-- C7: arming a reminder replaces any job under the same
`reminder_channel_videoid` key — afterwards exactly the new job stands under
the key — and leaves every other key's jobs untouched, so re-arming
supersedes and never duplicates. -/
theorem c7_reminder_unique_per_key (jobs : List Job) (job_id : String)
    (j : Job) (hid : j.id = job_id) :
    (armReminder jobs job_id j).filter (fun jb => jb.id = job_id) = [j] ∧
      ∀ other : String, other ≠ job_id →
        (armReminder jobs job_id j).filter (fun jb => jb.id = other) =
          jobs.filter (fun jb => jb.id = other) := by
  have harm : armReminder jobs job_id j =
      (if (jobs.find? (fun jb => jb.id = job_id)).isSome then
        jobs.filter (fun jb => jb.id ≠ job_id)
      else jobs) ++ [j] := rfl
  constructor
  · rw [harm, List.filter_append]
    have hnone :
        (if (jobs.find? (fun jb => jb.id = job_id)).isSome then
          jobs.filter (fun jb => jb.id ≠ job_id)
        else jobs).filter (fun jb => jb.id = job_id) = [] := by
      by_cases hfound : (jobs.find? (fun jb => jb.id = job_id)).isSome
      · rw [if_pos hfound, List.filter_filter]
        apply List.filter_eq_nil_iff.mpr
        intro a _
        simp
      · rw [if_neg hfound]
        apply List.filter_eq_nil_iff.mpr
        intro a ha
        have hfe := List.find?_eq_none.mp
          (Option.not_isSome_iff_eq_none.mp hfound) a ha
        simpa using hfe
    rw [hnone]
    simp [hid]
  · intro other hother
    rw [harm, List.filter_append]
    have hsame :
        (if (jobs.find? (fun jb => jb.id = job_id)).isSome then
          jobs.filter (fun jb => jb.id ≠ job_id)
        else jobs).filter (fun jb => jb.id = other) =
          jobs.filter (fun jb => jb.id = other) := by
      by_cases hfound : (jobs.find? (fun jb => jb.id = job_id)).isSome
      · rw [if_pos hfound, List.filter_filter]
        apply List.filter_congr
        intro a _
        by_cases hao : a.id = other
        · have haj : a.id ≠ job_id := by rw [hao]; exact hother
          simp [hao, haj, hother]
        · simp [hao]
      · rw [if_neg hfound]
    rw [hsame]
    have hj : ¬ j.id = other := by
      rw [hid]
      exact fun h => hother h.symm
    simp [hj]

/-- An armed reminder job under key `reminder_chD_vidB` carrying an updated
fire time. -/
def jNew : Job :=
  { id := "reminder_chD_vidB", fireAt := 2000,
    event := { type := ResourceType.BROADCAST,
               event := YoutubeEventType.REMINDER, channel := "chD",
               video := vB } }

/-- C7 witness: re-arming the key held by `stDup`'s job replaces it — the key
afterwards holds exactly the new job — and an unrelated key is untouched. -/
theorem c7_reminder_unique_per_key_witness :
    (armReminder stDup.jobs "reminder_chD_vidB" jNew).filter
        (fun jb => jb.id = "reminder_chD_vidB") = [jNew] ∧
      (armReminder stDup.jobs "reminder_chD_vidB" jNew).filter
          (fun jb => jb.id = "reminder_chX_other") =
        stDup.jobs.filter (fun jb => jb.id = "reminder_chX_other") :=
  ⟨(c7_reminder_unique_per_key stDup.jobs "reminder_chD_vidB" jNew rfl).1,
   (c7_reminder_unique_per_key stDup.jobs "reminder_chD_vidB" jNew rfl).2
     "reminder_chX_other" (by decide)⟩

/-! ## C8, C10: handshake GET -/

/-- C8: when the topic carries a `channel_id`, the handshake accepts — echoes
the challenge with a success status — iff (mode `subscribe` and the channel
is tracked) or (mode `unsubscribe` and it is not); otherwise it returns the
404 rejection. -/
theorem c8_handshake_accept_iff (cl : List (String × List Video))
    (req : GetRequest) (channel_id : String)
    (hq : extractChannelId req.topicQuery = some channel_id) :
    (WebsubEndpoint.get cl req = .ok (.plainText req.challenge) ↔
      ((req.mode = "subscribe" ∧ (lookupChannel cl channel_id).isSome) ∨
        (req.mode = "unsubscribe" ∧ (lookupChannel cl channel_id).isNone))) ∧
      (¬ ((req.mode = "subscribe" ∧ (lookupChannel cl channel_id).isSome) ∨
          (req.mode = "unsubscribe" ∧
            (lookupChannel cl channel_id).isNone)) →
        WebsubEndpoint.get cl req = .ok .notFound) := by
  have hget : WebsubEndpoint.get cl req =
      if (req.mode = "subscribe" ∧ (lookupChannel cl channel_id).isSome) ∨
          (req.mode = "unsubscribe" ∧ (lookupChannel cl channel_id).isNone)
      then .ok (.plainText req.challenge) else .ok .notFound := by
    unfold WebsubEndpoint.get
    rw [hq]
  by_cases hacc :
      (req.mode = "subscribe" ∧ (lookupChannel cl channel_id).isSome) ∨
        (req.mode = "unsubscribe" ∧ (lookupChannel cl channel_id).isNone)
  · rw [hget, if_pos hacc]
    exact ⟨iff_of_true rfl hacc, fun h => absurd hacc h⟩
  · rw [hget, if_neg hacc]
    exact ⟨iff_of_false (by simp) hacc, fun _ => rfl⟩

/-- Scenario F's handshake request: `mode=unsubscribe` for channel `chZ`. -/
def reqF : GetRequest :=
  { topicQuery := [("channel_id", "chZ")], challenge := "tok",
    mode := "unsubscribe" }

/-- C8 witness (Scenario F): unsubscribing a channel that is not tracked
echoes the challenge. -/
theorem c8_handshake_accept_iff_witness :
    WebsubEndpoint.get [] reqF = .ok (.plainText "tok") :=
  (c8_handshake_accept_iff [] reqF "chZ" rfl).1.mpr
    (Or.inr ⟨rfl, by decide⟩)

/-- C10: a handshake GET whose topic query carries no `channel_id` parameter
raises `TypeError` (subscripting the `None` from the query lookup) instead of
answering 404. -/
theorem c10_missing_channel_id_raises (cl : List (String × List Video))
    (req : GetRequest) (hq : extractChannelId req.topicQuery = none) :
    WebsubEndpoint.get cl req = .error .typeError := by
  unfold WebsubEndpoint.get
  rw [hq]

/-- A handshake request whose topic has a query but no `channel_id` key. -/
def reqNoChannel : GetRequest :=
  { topicQuery := [("foo", "bar")], challenge := "tok",
    mode := "subscribe" }

/-- C10 witness: the concrete `channel_id`-less handshake raises
`TypeError`. -/
theorem c10_missing_channel_id_raises_witness :
    WebsubEndpoint.get [] reqNoChannel = .error .typeError :=
  c10_missing_channel_id_raises [] reqNoChannel rfl

end PyStargazer
